import Mathlib

/-!
Verification of the Tempus Sers collection contracts.

The development shallowly embeds the Solidity sources:
machine integers (`uint32`, `uint256`, addresses, `bytes32` words) become
`Nat` with explicit reduction `% 2 ^ 32` where 32-bit overflow matters,
storage mappings become functions, and every state-mutating entry point
becomes a pure function `State → Except SersError State`, so that a
reverting call yields `Except.error` and commits nothing.
Keccak-256, EIP-712 digests and ECDSA/EIP-1271 signature checking are
cryptographic black boxes to the contract logic (only equality tests and a
boolean verdict are consumed), so they enter the model as explicit function
parameters.
-/

/-- `2 ^ 32`, the modulus of `uint32` arithmetic. -/
def U32 : Nat := 4294967296

namespace Shuffle

/-- Modelled from the spec: the library `Shuffle.sol` is not under `src/`
(only its test harness `ShuffleTest` and its callers are).  The spec
describes `permute` as a cycle-walking construction over non-power-of-two
ranges that must match the stated literal test vectors; this is one round
of the Kensler-style hashing permutation, on 32-bit words, reproducing all
literal vectors of the repository test suite (`part_000` and
`TempusSer.test.ts`).  `mask` is the all-ones mask covering `len`, `seed`
the 32-bit seed, and the result always lies in `[0, mask]`. -/
def permuteRound (mask seed idx : Nat) : Nat :=
  let i1 := idx ^^^ seed
  let i2 := (i1 * 0xe170893d) % U32
  let i3 := i2 ^^^ (seed >>> 16)
  let i4 := i3 ^^^ ((i3 &&& mask) >>> 4)
  let i5 := i4 ^^^ (seed >>> 8)
  let i6 := (i5 * 0x0929eb3f) % U32
  let i7 := i6 ^^^ (seed >>> 23)
  let i8 := i7 ^^^ ((i7 &&& mask) >>> 1)
  let i9 := (i8 * (1 ||| (seed >>> 27))) % U32
  let i10 := (i9 * 0x6935fa69) % U32
  let i11 := i10 ^^^ ((i10 &&& mask) >>> 11)
  let i12 := (i11 * 0x74dcb303) % U32
  let i13 := i12 ^^^ ((i12 &&& mask) >>> 2)
  let i14 := (i13 * 0x9e501cc3) % U32
  let i15 := i14 ^^^ ((i14 &&& mask) >>> 2)
  let i16 := (i15 * 0xc860a3df) % U32
  let i17 := i16 &&& mask
  i17 ^^^ (i17 >>> 5)

/-- Modelled from the spec: the smallest `2 ^ k - 1` covering `len - 1`,
obtained by smearing the high bit right (five shift-or steps suffice for
32-bit values). -/
def shuffleMask (len : Nat) : Nat :=
  let m0 := len - 1
  let m1 := m0 ||| (m0 >>> 1)
  let m2 := m1 ||| (m1 >>> 2)
  let m3 := m2 ||| (m2 >>> 4)
  let m4 := m3 ||| (m3 >>> 8)
  m4 ||| (m4 >>> 16)

/-- Modelled from the spec: the do-while cycle walk.  The round function is
applied at least once and re-applied until the value falls below `len`;
`fuel` bounds the iteration so the model stays total, with `none` standing
for non-termination (which on chain is running out of gas, also a failed
call). -/
def permuteWalk (mask seed len : Nat) : Nat → Nat → Option Nat
  | 0, _ => none
  | fuel + 1, idx =>
    let j := permuteRound mask seed idx
    if j < len then some j else permuteWalk mask seed len fuel j

/-- Modelled from the spec: `Shuffle.permute(idx, len, seed)`.  The
preconditions are `assert`-style fatal checks; the repository test suite
pins them to `len > 0` and `idx <= len` (`permute(1,1,0)` succeeds while
`permute(0xffffffff,1,...)` panics, commented "This is the idx<=len case").
After the cycle walk the seed is added on 32-bit words (wrapping at
`2 ^ 32`, as pinned by the literal vectors for `len = 0xffffffff`) and
reduced `% len`.  `none` models the fatal precondition failure. -/
def permute (idx len seed : Nat) : Option Nat :=
  if len = 0 then none
  else if len < idx then none
  else
    match permuteWalk (shuffleMask len) seed len (shuffleMask len + 2) idx with
    | none => none
    | some j => some (((j + seed) % U32) % len)

end Shuffle

/-- The revert reasons and panics any `TempusSers` entry point can abort
with.  A Solidity `require` string, a custom precondition, an
OpenZeppelin-internal revert and an `assert`/arithmetic panic all abort the
transaction the same way; the constructors record which check fired. -/
inductive SersError where
  | onlyOwner
  | seedAlreadySet
  | seedNotSet
  | ticketAlreadyClaimed
  | invalidTicketId
  | invalidRarityScore
  | invalidRecipient
  | invalidProof
  | invalidSignature
  | invalidTicketTokenPair
  | alreadyRevealed
  | commitmentMismatch
  | invalidBatch
  | supplyExceedsMaximum
  | uriCannotBeEmpty
  | notRevealedYet
  | mintToZeroAddress
  | tokenAlreadyMinted
  | panicAssert
  | panicUnderflow
  | safeCastFailure
  deriving DecidableEq

/-- EVM transaction semantics: a reverting call leaves storage exactly as
it was, a successful call commits the returned state. -/
def commitState {σ : Type} (st : σ) (r : Except SersError σ) : σ :=
  match r with
  | .ok s => s
  | .error _ => st

/-- OpenZeppelin `MerkleProof.processProof`: fold the proof over the leaf,
hashing each pair in sorted order.  `pairHash` stands for
`keccak256(abi.encodePacked(a, b))`. -/
def processProof (pairHash : Nat → Nat → Nat) : Nat → List Nat → Nat
  | leaf, [] => leaf
  | leaf, p :: rest =>
      processProof pairHash (if leaf ≤ p then pairHash leaf p else pairHash p leaf) rest

/-- OpenZeppelin `MerkleProof.verify`. -/
def merkleVerify (pairHash : Nat → Nat → Nat) (proof : List Nat) (root leaf : Nat) : Bool :=
  processProof pairHash leaf proof == root

namespace Sers1

/-! The single-batch allowlist variant (`src/contracts/TempusSers.sol`,
contract `TempusSers` with `proveTicket`). -/

def MAX_SUPPLY : Nat := 3333

/-- Contract storage plus the ERC721 ledger facts the contract reads:
`minted` is `_exists`, `mintedCount` is `ERC721Enumerable.totalSupply()`.
Addresses and `bytes32` words are `Nat`. -/
structure State where
  owner : Nat
  baseTokenURI : List Char
  claimlistRoot : Nat
  shuffleSeed : Nat
  claimedTickets : Nat → Bool
  originalMinter : Nat → Nat
  minted : Nat → Bool
  mintedCount : Nat

/-- `sanitizeBaseURI`: require nonempty, append a trailing slash when the
last byte is not already one. -/
def sanitizeBaseURI (uri : List Char) : Except SersError (List Char) :=
  if uri.length = 0 then .error .uriCannotBeEmpty
  else if uri.getLast? ≠ some '/' then .ok (uri ++ ['/'])
  else .ok uri

/-- `setSeed()`: owner-only, one-shot while the stored seed is 0; the
32-bit working seed is the truncation of the drawn randomness word
(`uint32(uint256(blockhash(block.number - 1)))`). -/
def setSeed (st : State) (sender randomness : Nat) : Except SersError State :=
  if sender ≠ st.owner then .error .onlyOwner
  else if st.shuffleSeed ≠ 0 then .error .seedAlreadySet
  else .ok { st with shuffleSeed := randomness % U32 }

/-- `ticketToTokenId`: seed gate, then
`Shuffle.permute(toUint32(ticketId - 1), uint32(MAX_SUPPLY), shuffleSeed)`.
`ticketId - 1` is checked Solidity 0.8 subtraction (panic on `ticketId = 0`)
and `SafeCast.toUint32` reverts above `2^32 - 1`; the permute preconditions
are an assertion panic. -/
def ticketToTokenId (st : State) (ticketId : Nat) : Except SersError Nat :=
  if st.shuffleSeed = 0 then .error .seedNotSet
  else if ticketId = 0 then .error .panicUnderflow
  else if ¬ ticketId - 1 < U32 then .error .safeCastFailure
  else
    match Shuffle.permute (ticketId - 1) MAX_SUPPLY st.shuffleSeed with
    | none => .error .panicAssert
    | some v => .ok v

/-- `_mintToUser`: assert the supply bound, record the original minter,
then `_safeMint` (which itself rejects the zero address and an id that
already exists, and grows the ledger by one). -/
def mintToUser (st : State) (recipient tokenId : Nat) : Except SersError State :=
  if ¬ st.mintedCount < MAX_SUPPLY then .error .panicAssert
  else
    let st1 := { st with
      originalMinter := fun t => if t = tokenId then recipient else st.originalMinter t }
    if recipient = 0 then .error .mintToZeroAddress
    else if st1.minted tokenId then .error .tokenAlreadyMinted
    else .ok { st1 with
      minted := fun t => if t = tokenId then true else st1.minted t,
      mintedCount := st1.mintedCount + 1 }

/-- `proveTicket(recipient, ticketId, proof)`: claimed-check, 1-indexed
range check, zero-recipient check, Merkle membership of
`keccak256(abi.encode(recipient, ticketId))` (the parameter `leafHash`),
then mark claimed and mint the derived token id. -/
def proveTicket (pairHash : Nat → Nat → Nat) (leafHash : Nat → Nat → Nat)
    (st : State) (recipient ticketId : Nat) (proof : List Nat) : Except SersError State :=
  if st.claimedTickets ticketId then .error .ticketAlreadyClaimed
  else if ¬ (0 < ticketId ∧ ticketId ≤ MAX_SUPPLY) then .error .invalidTicketId
  else if recipient = 0 then .error .invalidRecipient
  else if ¬ merkleVerify pairHash proof st.claimlistRoot (leafHash recipient ticketId) then
    .error .invalidProof
  else
    let st1 := { st with
      claimedTickets := fun t => if t = ticketId then true else st.claimedTickets t }
    match ticketToTokenId st1 ticketId with
    | .error e => .error e
    | .ok tokenId => mintToUser st1 recipient tokenId

end Sers1

namespace Sers0

/-! The attestation (rarity) variant of `src/unnamed/part_004`: contract
`TempusSers` with `redeemTicket` over an EIP-712 `ClaimSer` message and the
placeholder `shuffle`. -/

def MAX_SUPPLY : Nat := 11111

structure State where
  owner : Nat
  baseTokenURI : List Char
  shuffleSeed : Nat
  claimedTickets : Nat → Bool
  originalMinter : Nat → Nat
  rarity : Nat → Nat
  minted : Nat → Bool
  mintedCount : Nat

/-- `setSeed()` of this variant (identical one-shot logic). -/
def setSeed (st : State) (sender randomness : Nat) : Except SersError State :=
  if sender ≠ st.owner then .error .onlyOwner
  else if st.shuffleSeed ≠ 0 then .error .seedAlreadySet
  else .ok { st with shuffleSeed := randomness % U32 }

/-- The placeholder `shuffle(i, l, s) = (i ^ l ^ s) % l` of this variant
(its only call site passes the non-zero constant `MAX_SUPPLY` for `l`). -/
def shuffle (i l s : Nat) : Nat := (i ^^^ l ^^^ s) % l

/-- `ticketToTokenId` of this variant: seed gate, `SafeCast.toUint32`,
then the placeholder `shuffle` over the full supply. -/
def ticketToTokenId (st : State) (ticketId : Nat) : Except SersError Nat :=
  if st.shuffleSeed = 0 then .error .seedNotSet
  else if ¬ ticketId < U32 then .error .safeCastFailure
  else .ok (shuffle ticketId MAX_SUPPLY st.shuffleSeed)

/-- `_mintToUser` of this variant (also records the rarity score). -/
def mintToUser (st : State) (recipient tokenId rarityScore : Nat) : Except SersError State :=
  if ¬ st.mintedCount < MAX_SUPPLY then .error .panicAssert
  else
    let st1 := { st with
      originalMinter := fun t => if t = tokenId then recipient else st.originalMinter t,
      rarity := fun t => if t = tokenId then rarityScore else st.rarity t }
    if recipient = 0 then .error .mintToZeroAddress
    else if st1.minted tokenId then .error .tokenAlreadyMinted
    else .ok { st1 with
      minted := fun t => if t = tokenId then true else st1.minted t,
      mintedCount := st1.mintedCount + 1 }

/-- `redeemTicket(recipient, ticketId, tokenId, rarityScore, signature)`.
`sigValid owner recipient ticketId tokenId rarityScore signature` stands
for `SignatureChecker.isValidSignatureNow(owner(), digest, signature)`
over the EIP-712 `ClaimSer` digest of exactly those fields.  Note the
claimed flag is written before the ticket/token pair sanity check. -/
def redeemTicket (sigValid : Nat → Nat → Nat → Nat → Nat → List Nat → Bool)
    (st : State) (recipient ticketId tokenId rarityScore : Nat) (signature : List Nat) :
    Except SersError State :=
  if st.claimedTickets ticketId then .error .ticketAlreadyClaimed
  else if ¬ ticketId < MAX_SUPPLY then .error .invalidTicketId
  else if ¬ rarityScore < 255 then .error .invalidRarityScore
  else if ¬ sigValid st.owner recipient ticketId tokenId rarityScore signature then
    .error .invalidSignature
  else
    let st1 := { st with
      claimedTickets := fun t => if t = ticketId then true else st.claimedTickets t }
    match ticketToTokenId st1 ticketId with
    | .error e => .error e
    | .ok derived =>
        if tokenId ≠ derived then .error .invalidTicketTokenPair
        else mintToUser st1 recipient tokenId rarityScore

end Sers0

namespace SersM

/-! The multi-batch variant (second contract in
`src/contracts/TempusSers.sol`): per-batch supply, commitment, seed,
reveal and claimed set, with token ids namespaced by
`(batch << 16) | tokenId`. -/

def MAX_SUPPLY : Nat := 3333

structure State where
  owner : Nat
  nextBatch : Nat
  batchSupply : Nat → Nat
  baseTokenURIs : Nat → List Char
  baseTokenURICommitments : Nat → Nat
  shuffleSeeds : Nat → Nat
  claimedTickets : Nat → Nat → Bool
  originalMinter : Nat → Nat
  minted : Nat → Bool
  mintedCount : Nat

/-- The constructor: empty storage owned by the deployer. -/
def initState (deployer : Nat) : State where
  owner := deployer
  nextBatch := 0
  batchSupply := fun _ => 0
  baseTokenURIs := fun _ => []
  baseTokenURICommitments := fun _ => 0
  shuffleSeeds := fun _ => 0
  claimedTickets := fun _ _ => false
  originalMinter := fun _ => 0
  minted := fun _ => false
  mintedCount := 0

/-- `totalAvailableSupply()`: sum of `batchSupply[i]` for `i < nextBatch`. -/
def totalAvailableSupply (f : Nat → Nat) : Nat → Nat
  | 0 => 0
  | n + 1 => totalAvailableSupply f n + f n

/-- `batchToTokenId`: the batch index goes in the high bits. -/
def batchToTokenId (batch tokenId : Nat) : Nat := (batch <<< 16) ||| tokenId

/-- `sanitizeBaseURI` of this variant: the nonempty check is an `assert`. -/
def sanitizeBaseURI (uri : List Char) : Option (List Char) :=
  if uri.length = 0 then none
  else if uri.getLast? ≠ some '/' then some (uri ++ ['/'])
  else some uri

/-- `addBatch(batch, uriCommitment, supply)`: owner-only, sequential batch
index, cumulative supply capped by `MAX_SUPPLY`, commitment neither zero
nor the hash of the empty string (`kec` stands for `keccak256`). -/
def addBatch (kec : List Char → Nat) (st : State)
    (sender batch uriCommitment supply : Nat) : Except SersError State :=
  if sender ≠ st.owner then .error .onlyOwner
  else if st.nextBatch ≠ batch then .error .invalidBatch
  else if ¬ totalAvailableSupply st.batchSupply st.nextBatch + supply ≤ MAX_SUPPLY then
    .error .supplyExceedsMaximum
  else if ¬ (uriCommitment ≠ 0 ∧ uriCommitment ≠ kec []) then .error .uriCannotBeEmpty
  else .ok { st with
    baseTokenURICommitments := fun b =>
      if b = batch then uriCommitment else st.baseTokenURICommitments b,
    batchSupply := fun b => if b = batch then supply else st.batchSupply b,
    nextBatch := st.nextBatch + 1 }

/-- `setSeed(batch)`: owner-only, one-shot per batch. -/
def setSeed (st : State) (sender batch randomness : Nat) : Except SersError State :=
  if sender ≠ st.owner then .error .onlyOwner
  else if st.shuffleSeeds batch ≠ 0 then .error .seedAlreadySet
  else .ok { st with
    shuffleSeeds := fun b => if b = batch then randomness % U32 else st.shuffleSeeds b }

/-- `revealBatch(batch, baseTokenURI)`: owner-only; requires the batch seed
set, the batch not yet revealed and the URI to match the stored
commitment; stores the sanitized URI. -/
def revealBatch (kec : List Char → Nat) (st : State)
    (sender batch : Nat) (uri : List Char) : Except SersError State :=
  if sender ≠ st.owner then .error .onlyOwner
  else if st.shuffleSeeds batch = 0 then .error .seedNotSet
  else if (st.baseTokenURIs batch).length ≠ 0 then .error .alreadyRevealed
  else if kec uri ≠ st.baseTokenURICommitments batch then .error .commitmentMismatch
  else
    match sanitizeBaseURI uri with
    | none => .error .panicAssert
    | some u =>
        .ok { st with baseTokenURIs := fun b => if b = batch then u else st.baseTokenURIs b }

/-- `ticketToTokenId(batch, ticketId)` of this variant: seed gate, then
`Shuffle.permute(toUint32(ticketId), uint32(batchSupply[batch]), seed)`
namespaced into the batch's id range.  Note the permutation length is the
batch supply (truncated to 32 bits by the explicit cast). -/
def ticketToTokenId (st : State) (batch ticketId : Nat) : Except SersError Nat :=
  if st.shuffleSeeds batch = 0 then .error .seedNotSet
  else if ¬ ticketId < U32 then .error .safeCastFailure
  else
    match Shuffle.permute ticketId (st.batchSupply batch % U32) (st.shuffleSeeds batch) with
    | none => .error .panicAssert
    | some raw => .ok (batchToTokenId batch raw)

/-- `_mintToUser` of this variant. -/
def mintToUser (st : State) (recipient tokenId : Nat) : Except SersError State :=
  if ¬ st.mintedCount < MAX_SUPPLY then .error .panicAssert
  else
    let st1 := { st with
      originalMinter := fun t => if t = tokenId then recipient else st.originalMinter t }
    if recipient = 0 then .error .mintToZeroAddress
    else if st1.minted tokenId then .error .tokenAlreadyMinted
    else .ok { st1 with
      minted := fun t => if t = tokenId then true else st1.minted t,
      mintedCount := st1.mintedCount + 1 }

/-- `redeemTicket(recipient, batch, ticketId, signature)`: reveal gate,
claimed-check, a range check against the global `MAX_SUPPLY` (not the
batch supply), signature check over the `ClaimSer(recipient,batch,ticketId)`
digest, then mark claimed and mint the derived id. -/
def redeemTicket (sigValid : Nat → Nat → Nat → Nat → List Nat → Bool)
    (st : State) (recipient batch ticketId : Nat) (signature : List Nat) :
    Except SersError State :=
  if (st.baseTokenURIs batch).length = 0 then .error .notRevealedYet
  else if st.claimedTickets batch ticketId then .error .ticketAlreadyClaimed
  else if ¬ ticketId < MAX_SUPPLY then .error .invalidTicketId
  else if ¬ sigValid st.owner recipient batch ticketId signature then .error .invalidSignature
  else
    let st1 := { st with
      claimedTickets := fun b t =>
        if b = batch ∧ t = ticketId then true else st.claimedTickets b t }
    match ticketToTokenId st1 batch ticketId with
    | .error e => .error e
    | .ok tokenId => mintToUser st1 recipient tokenId

/-- The states reachable from deployment through successful entry-point
calls, for arbitrary senders, parameters, hash oracles and signature
verdicts. -/
inductive Reachable : State → Prop
  | deploy (deployer : Nat) : Reachable (initState deployer)
  | stepAddBatch {st st2 : State} (kec sender batch c supply) : Reachable st →
      addBatch kec st sender batch c supply = .ok st2 → Reachable st2
  | stepSetSeed {st st2 : State} (sender batch randomness) : Reachable st →
      setSeed st sender batch randomness = .ok st2 → Reachable st2
  | stepRevealBatch {st st2 : State} (kec sender batch uri) : Reachable st →
      revealBatch kec st sender batch uri = .ok st2 → Reachable st2
  | stepRedeemTicket {st st2 : State} (sigValid recipient batch ticketId signature) :
      Reachable st →
      redeemTicket sigValid st recipient batch ticketId signature = .ok st2 → Reachable st2

end SersM

/-- Whether a call commits (`ok`) rather than reverts. -/
def callSucceeds {σ : Type} (r : Except SersError σ) : Bool :=
  match r with
  | .ok _ => true
  | .error _ => false

/-- A freshly deployed single-batch collection owned by address 1 with an
as-yet-unset seed; `claimlistRoot = 3` equals the leaf hash of
`(recipient, ticketId) = (1, 1)` under the sample leaf oracle
`fun r t => r + 2 * t`. -/
def sampleState1 : Sers1.State where
  owner := 1
  baseTokenURI := ['a', '/']
  claimlistRoot := 3
  shuffleSeed := 0
  claimedTickets := fun _ => false
  originalMinter := fun _ => 0
  minted := fun _ => false
  mintedCount := 0

/-- A multi-batch collection staged for reveal testing: batch 0 is
unrevealed with seed 1 and commitment 1, batch 1 has no seed yet, and
batch 2 is already revealed. -/
def revealStateM : SersM.State where
  owner := 1
  nextBatch := 3
  batchSupply := fun _ => 10
  baseTokenURIs := fun b => if b = 2 then ['x', '/'] else []
  baseTokenURICommitments := fun _ => 1
  shuffleSeeds := fun b => if b = 1 then 0 else 1
  claimedTickets := fun _ _ => false
  originalMinter := fun _ => 0
  minted := fun _ => false
  mintedCount := 0

/-- A freshly deployed attestation-variant collection owned by address 1
with an unset seed. -/
def sampleState0 : Sers0.State where
  owner := 1
  baseTokenURI := ['a', '/']
  shuffleSeed := 0
  claimedTickets := fun _ => false
  originalMinter := fun _ => 0
  rarity := fun _ => 0
  minted := fun _ => false
  mintedCount := 0

/-- A one-batch collection (supply 10, seed 1, revealed) with nothing
claimed yet. -/
def redeemStateM : SersM.State where
  owner := 1
  nextBatch := 1
  batchSupply := fun _ => 10
  baseTokenURIs := fun _ => ['a', '/']
  baseTokenURICommitments := fun _ => 1
  shuffleSeeds := fun _ => 1
  claimedTickets := fun _ _ => false
  originalMinter := fun _ => 0
  minted := fun _ => false
  mintedCount := 0

/-- A revealed, seeded one-batch collection whose batch supply is
`MAX_SUPPLY - 1 = 3332`. -/
def cornerStateM : SersM.State where
  owner := 1
  nextBatch := 1
  batchSupply := fun _ => 3332
  baseTokenURIs := fun _ => ['a', '/']
  baseTokenURICommitments := fun _ => 1
  shuffleSeeds := fun _ => 1
  claimedTickets := fun _ _ => false
  originalMinter := fun _ => 0
  minted := fun _ => false
  mintedCount := 0

namespace Shuffle

/-- Reducing `% 2 ^ 32` cannot change parity. -/
theorem parU (a : Nat) : a % U32 % 2 = a % 2 :=
  Nat.mod_mod_of_dvd a (by norm_num [U32])

/-- Multiplying by an odd constant preserves parity. -/
theorem parMul (a c : Nat) (h : c % 2 = 1) : a * c % 2 = a % 2 := by
  rw [Nat.mul_mod, h, Nat.mul_one, Nat.mod_mod_of_dvd _ (dvd_refl 2)]

/-- XOR adds parities. -/
theorem parXor (a b : Nat) : (a ^^^ b) % 2 = (a % 2 + b % 2) % 2 := by
  have h : (a ^^^ b) &&& 1 = (a &&& 1) ^^^ (b &&& 1) := Nat.and_xor_distrib_right
  rw [Nat.and_one_is_mod, Nat.and_one_is_mod, Nat.and_one_is_mod] at h
  rw [h]
  rcases Nat.mod_two_eq_zero_or_one a with ha | ha <;>
    rcases Nat.mod_two_eq_zero_or_one b with hb | hb <;> rw [ha, hb] <;> decide

/-- Setting bit zero with `1 ||| y` always yields an odd value. -/
theorem orOneOdd (y : Nat) : (1 ||| y) % 2 = 1 := by
  have h : (1 ||| y) &&& 1 = (1 &&& 1) ||| (y &&& 1) := Nat.and_distrib_right 1 y 1
  rw [Nat.and_one_is_mod, Nat.and_one_is_mod, Nat.and_one_is_mod] at h
  rw [h]
  rcases Nat.mod_two_eq_zero_or_one y with hy | hy <;> rw [hy] <;> decide

/-- A single bit shifted right by a positive amount vanishes. -/
theorem modTwoShift (a k : Nat) (hk : 0 < k) : (a % 2) >>> k = 0 := by
  rw [Nat.shiftRight_eq_div_pow]
  refine Nat.div_eq_of_lt (lt_of_lt_of_le (Nat.mod_lt a (by decide)) ?_)
  calc (2 : Nat) = 2 ^ 1 := rfl
    _ ≤ 2 ^ k := Nat.pow_le_pow_right (by decide) hk

theorem modTwoShiftOne (a : Nat) : (a % 2) >>> 1 = 0 := modTwoShift a 1 (by decide)

theorem modTwoShiftTwo (a : Nat) : (a % 2) >>> 2 = 0 := modTwoShift a 2 (by decide)

theorem modTwoShiftFour (a : Nat) : (a % 2) >>> 4 = 0 := modTwoShift a 4 (by decide)

theorem modTwoShiftFive (a : Nat) : (a % 2) >>> 5 = 0 := modTwoShift a 5 (by decide)

theorem modTwoShiftEleven (a : Nat) : (a % 2) >>> 11 = 0 := modTwoShift a 11 (by decide)

/-- With the all-ones mask `1` (length 2) the round function reduces to a
parity computation: the masked xorshift steps drop their single bit and
become identities, multiplications by odd constants keep parity, and the
XORed seed material contributes its own parity. -/
theorem permuteRound_mask_one (s x : Nat) :
    permuteRound 1 s x = (x + s + (s >>> 16) + (s >>> 8) + (s >>> 23)) % 2 := by
  dsimp only [permuteRound]
  simp only [Nat.and_one_is_mod, modTwoShiftOne, modTwoShiftTwo, modTwoShiftFour,
    modTwoShiftFive, modTwoShiftEleven, Nat.xor_zero]
  simp only [parU, parMul _ _ (by norm_num : (0xc860a3df : Nat) % 2 = 1),
    parMul _ _ (by norm_num : (0x9e501cc3 : Nat) % 2 = 1),
    parMul _ _ (by norm_num : (0x74dcb303 : Nat) % 2 = 1),
    parMul _ _ (by norm_num : (0x6935fa69 : Nat) % 2 = 1),
    parMul _ _ (orOneOdd (s >>> 27)),
    parMul _ _ (by norm_num : (0x0929eb3f : Nat) % 2 = 1),
    parMul _ _ (by norm_num : (0xe170893d : Nat) % 2 = 1),
    parXor]
  omega

/-- With mask `0` (length 1) the round function is constantly zero. -/
theorem permuteRound_mask_zero (s x : Nat) : permuteRound 0 s x = 0 := by
  dsimp only [permuteRound]
  simp [Nat.and_zero, Nat.zero_shiftRight, Nat.xor_zero]

theorem shuffleMask_one : shuffleMask 1 = 0 := by decide

theorem shuffleMask_two : shuffleMask 2 = 1 := by decide

/-- Unfolding one iteration of the do-while walk. -/
theorem permuteWalk_succ (mask seed len fuel idx : Nat) :
    permuteWalk mask seed len (fuel + 1) idx =
      if permuteRound mask seed idx < len then some (permuteRound mask seed idx)
      else permuteWalk mask seed len fuel (permuteRound mask seed idx) := rfl

/-- `permute` at length 1 always yields 0, for every seed. -/
theorem permute_len_one (s : Nat) : permute 0 1 s = some 0 := by
  rw [permute, if_neg (by decide : ¬(1 = 0)), if_neg (by decide : ¬(1 < 0)),
    shuffleMask_one, show (0 : Nat) + 2 = 1 + 1 from rfl, permuteWalk_succ,
    permuteRound_mask_zero, if_pos (by decide : (0 : Nat) < 1)]
  simp [Nat.mod_one]

/-- `permute` at length 2: closed form, the walk exits after one round and
the round is the parity computation of `permuteRound_mask_one`. -/
theorem permute_len_two (s x : Nat) (hx : x ≤ 2) :
    permute x 2 s =
      some ((((x + s + (s >>> 16) + (s >>> 8) + (s >>> 23)) % 2 + s) % U32) % 2) := by
  have h2 : (x + s + (s >>> 16) + (s >>> 8) + (s >>> 23)) % 2 < 2 :=
    Nat.mod_lt _ (by decide)
  rw [permute, if_neg (by decide : ¬(2 = 0)), if_neg (Nat.not_lt.mpr hx),
    shuffleMask_two, show (1 : Nat) + 2 = 2 + 1 from rfl, permuteWalk_succ,
    permuteRound_mask_one, if_pos h2]

end Shuffle

/-- C1: the permutation engine is claimed to be a bijection on
`[0, length)` for every fixed `(length, seed)` with `length > 0`, in
particular for every non-zero seed.  This fails: at `length = 3`,
`seed = 0xffffffff` the two distinct in-range indices 1 and 2 both map
to 0 (so output 2 is never attained).  The final `(idx + seed) % len`
addition is performed on 32-bit words and wraps past `2 ^ 32`, merging
distinct walk outputs whenever `seed + length - 1 ≥ 2 ^ 32`. -/
theorem permute_not_injective_on_wrapping_seed :
    Shuffle.permute 1 3 0xffffffff = some 0 ∧ Shuffle.permute 2 3 0xffffffff = some 0 :=
  ⟨by decide, by decide⟩

/-- C2: the literal engine vectors.  `permute(1,1,0) = 0`,
`permute(1,0xffffffff,0) = 873951518`,
`permute(1,0xffffffff,0xffffffff) = 4108390583`, `permute(0,1,s) = 0` for
every seed, and for every seed the outputs at indices 0 and 1 of length 2
cover `{0, 1}`. -/
theorem permute_literal_vectors :
    Shuffle.permute 1 1 0 = some 0 ∧
    Shuffle.permute 1 0xffffffff 0 = some 873951518 ∧
    Shuffle.permute 1 0xffffffff 0xffffffff = some 4108390583 ∧
    (∀ s : Nat, Shuffle.permute 0 1 s = some 0) ∧
    (∀ s : Nat,
      (Shuffle.permute 0 2 s = some 0 ∧ Shuffle.permute 1 2 s = some 1) ∨
      (Shuffle.permute 0 2 s = some 1 ∧ Shuffle.permute 1 2 s = some 0)) := by
  refine ⟨by decide, by decide, by decide, Shuffle.permute_len_one, fun s => ?_⟩
  rw [Shuffle.permute_len_two s 0 (by decide), Shuffle.permute_len_two s 1 (by decide)]
  simp only [Shuffle.parU, Option.some.injEq]
  omega

/-- C3 counterexample: the claim says `permute(idx, len, s)` fails
whenever `idx ≥ len`, but the engine's own test suite pins
`permute(1, 1, 0) = 0`: the boundary case `idx = len` succeeds (the
fatal check is `idx ≤ len`, not `idx < len`). -/
theorem permute_at_index_equal_length_succeeds : Shuffle.permute 1 1 0 = some 0 := by
  decide

/-- C3 (amended): `permute` fails as a fatal precondition failure whenever
`length = 0` (for every seed, in particular `permute(0,0,s)`), and
whenever `index > length` (strictly); the boundary `index = length` is
accepted. -/
theorem permute_out_of_range_fails (idx len s : Nat) (h : len = 0 ∨ len < idx) :
    Shuffle.permute idx len s = none := by
  rcases h with h | h
  · rw [Shuffle.permute, if_pos h]
  · rcases Nat.eq_zero_or_pos len with h0 | h0
    · rw [Shuffle.permute, if_pos h0]
    · rw [Shuffle.permute, if_neg (by omega), if_pos h]

/-- C3 witness: concrete instances of both failure conditions. -/
theorem permute_out_of_range_fails_witness :
    Shuffle.permute 0 0 5 = none ∧ Shuffle.permute 7 3 0 = none :=
  ⟨permute_out_of_range_fails 0 0 5 (Or.inl rfl),
   permute_out_of_range_fails 7 3 0 (Or.inr (by decide))⟩

/-- C4 counterexample: when the randomness word drawn by the first
`setSeed` is a multiple of `2 ^ 32`, the call succeeds but the stored
32-bit seed is again the unset sentinel 0, and a second `setSeed` succeeds
instead of failing with `SeedAlreadySet`. -/
theorem setSeed_zero_draw_not_one_shot :
    callSucceeds (Sers1.setSeed sampleState1 1 U32) = true ∧
    (commitState sampleState1 (Sers1.setSeed sampleState1 1 U32)).shuffleSeed = 0 ∧
    callSucceeds
      (Sers1.setSeed (commitState sampleState1 (Sers1.setSeed sampleState1 1 U32)) 1 7) =
      true :=
  ⟨rfl, rfl, rfl⟩

/-- C4 (amended): with the stored seed at the unset sentinel, an owner
call of `setSeed` succeeds and stores the 32-bit truncation of the drawn
randomness; provided that truncation is non-zero, the seed has left the
sentinel and every subsequent owner call fails with `SeedAlreadySet`.
(When the truncation is zero the seed remains indistinguishable from
unset and `setSeed` can be called again.) -/
theorem setSeed_one_shot_nonzero_draw (st : Sers1.State) (sender randomness : Nat)
    (hown : sender = st.owner) (hunset : st.shuffleSeed = 0)
    (hnz : randomness % U32 ≠ 0) :
    Sers1.setSeed st sender randomness = .ok { st with shuffleSeed := randomness % U32 } ∧
    (∀ sender2 randomness2 : Nat, sender2 = st.owner →
      Sers1.setSeed { st with shuffleSeed := randomness % U32 } sender2 randomness2 =
        .error .seedAlreadySet) := by
  constructor
  · rw [Sers1.setSeed, if_neg (fun h => h hown), if_neg (fun h => h hunset)]
  · intro sender2 randomness2 h2
    rw [Sers1.setSeed, if_neg (fun h => h h2), if_pos hnz]

/-- C4 witness: on the sample collection, drawing randomness 5 stores
seed 5 and locks the seed thereafter. -/
theorem setSeed_one_shot_nonzero_draw_witness :
    Sers1.setSeed sampleState1 1 5 = .ok { sampleState1 with shuffleSeed := 5 % U32 } ∧
    Sers1.setSeed { sampleState1 with shuffleSeed := 5 % U32 } 1 9 =
      .error .seedAlreadySet := by
  have h := setSeed_one_shot_nonzero_draw sampleState1 1 5 rfl rfl (by decide)
  exact ⟨h.1, h.2 1 9 rfl⟩

/-- C5: `ticketToTokenId` fails with `SeedNotSet` whenever the stored seed
is the unset sentinel (for every ticket id), and otherwise hands the
ticket's 0-based index, the stored seed and `MAX_SUPPLY` straight to the
permutation engine, returning exactly its verdict (value, or fatal
precondition failure). -/
theorem ticketToTokenId_delegates (st : Sers1.State) (ticketId : Nat) :
    (st.shuffleSeed = 0 → Sers1.ticketToTokenId st ticketId = .error .seedNotSet) ∧
    (st.shuffleSeed ≠ 0 → 1 ≤ ticketId → ticketId - 1 < U32 →
      Sers1.ticketToTokenId st ticketId =
        match Shuffle.permute (ticketId - 1) Sers1.MAX_SUPPLY st.shuffleSeed with
        | none => .error .panicAssert
        | some v => .ok v) := by
  constructor
  · intro h
    rw [Sers1.ticketToTokenId, if_pos h]
  · intro h h1 hc
    rw [Sers1.ticketToTokenId, if_neg h, if_neg (by omega), if_neg (not_not_intro hc)]

/-- C5 witness: on the sample collection the seed gate fires, and with
seed 1 set, ticket 1 resolves through the engine (to token 2023). -/
theorem ticketToTokenId_delegates_witness :
    Sers1.ticketToTokenId sampleState1 1 = .error .seedNotSet ∧
    Sers1.ticketToTokenId { sampleState1 with shuffleSeed := 1 } 1 =
      (match Shuffle.permute 0 Sers1.MAX_SUPPLY 1 with
        | none => .error .panicAssert
        | some v => .ok v) ∧
    Sers1.ticketToTokenId { sampleState1 with shuffleSeed := 1 } 1 = .ok 2023 := by
  refine ⟨(ticketToTokenId_delegates sampleState1 1).1 rfl, ?_, rfl⟩
  exact (ticketToTokenId_delegates { sampleState1 with shuffleSeed := 1 } 1).2
    (by decide) (by decide) (by decide)

/-- C6: `revealBatch` is owner-only; it fails `SeedNotSet` while the batch
seed is unset, `AlreadyRevealed` once the batch base URI is stored,
`CommitmentMismatch` when the candidate's hash differs from the stored
commitment, and on success stores the candidate normalized to end with a
trailing slash (appended when missing), leaving the batch revealed. -/
theorem revealBatch_commit_reveal (kec : List Char → Nat) (st : SersM.State)
    (sender batch : Nat) (uri : List Char) :
    (sender ≠ st.owner → SersM.revealBatch kec st sender batch uri = .error .onlyOwner) ∧
    (sender = st.owner → st.shuffleSeeds batch = 0 →
      SersM.revealBatch kec st sender batch uri = .error .seedNotSet) ∧
    (sender = st.owner → st.shuffleSeeds batch ≠ 0 → st.baseTokenURIs batch ≠ [] →
      SersM.revealBatch kec st sender batch uri = .error .alreadyRevealed) ∧
    (sender = st.owner → st.shuffleSeeds batch ≠ 0 → st.baseTokenURIs batch = [] →
      kec uri ≠ st.baseTokenURICommitments batch →
      SersM.revealBatch kec st sender batch uri = .error .commitmentMismatch) ∧
    (sender = st.owner → st.shuffleSeeds batch ≠ 0 → st.baseTokenURIs batch = [] →
      kec uri = st.baseTokenURICommitments batch → uri ≠ [] →
      SersM.revealBatch kec st sender batch uri =
        .ok { st with baseTokenURIs := fun b =>
          if b = batch then (if uri.getLast? ≠ some '/' then uri ++ ['/'] else uri)
          else st.baseTokenURIs b } ∧
      (if uri.getLast? ≠ some '/' then uri ++ ['/'] else uri).getLast? = some '/' ∧
      (if uri.getLast? ≠ some '/' then uri ++ ['/'] else uri) ≠ []) := by
  refine ⟨?_, ?_, ?_, ?_, ?_⟩
  · intro h
    rw [SersM.revealBatch, if_pos h]
  · intro ho hs
    rw [SersM.revealBatch, if_neg (not_not_intro ho), if_pos hs]
  · intro ho hs hr
    rw [SersM.revealBatch, if_neg (not_not_intro ho), if_neg hs,
      if_pos (fun h => hr (List.length_eq_zero.mp h))]
  · intro ho hs hr hm
    rw [SersM.revealBatch, if_neg (not_not_intro ho), if_neg hs,
      if_neg (not_not_intro (by rw [hr]; rfl)), if_pos hm]
  · intro ho hs hr hm hu
    have hlen : ¬ uri.length = 0 := fun h => hu (List.length_eq_zero.mp h)
    rw [SersM.revealBatch, if_neg (not_not_intro ho), if_neg hs,
      if_neg (not_not_intro (by rw [hr]; rfl)), if_neg (not_not_intro hm),
      SersM.sanitizeBaseURI, if_neg hlen]
    by_cases hl : uri.getLast? = some '/'
    · simp only [if_neg (not_not_intro hl)]
      exact ⟨trivial, hl, hu⟩
    · simp only [if_pos hl]
      exact ⟨trivial, List.getLast?_concat uri, by simp⟩

/-- C6 witness: every branch exercised on `revealStateM` with the length
oracle as hash: non-owner rejection, unset seed, double reveal, commitment
mismatch, and a successful reveal of `"u"` stored as `"u/"`. -/
theorem revealBatch_commit_reveal_witness :
    SersM.revealBatch List.length revealStateM 2 0 ['u'] = .error .onlyOwner ∧
    SersM.revealBatch List.length revealStateM 1 1 ['u'] = .error .seedNotSet ∧
    SersM.revealBatch List.length revealStateM 1 2 ['x', '/'] = .error .alreadyRevealed ∧
    SersM.revealBatch List.length revealStateM 1 0 ['u', 'u'] = .error .commitmentMismatch ∧
    SersM.revealBatch List.length revealStateM 1 0 ['u'] =
      .ok { revealStateM with baseTokenURIs := fun b =>
        if b = 0 then
          (if List.getLast? ['u'] ≠ some '/' then ['u'] ++ ['/'] else ['u'])
        else revealStateM.baseTokenURIs b } := by
  refine ⟨?_, ?_, ?_, ?_, ?_⟩
  · exact (revealBatch_commit_reveal List.length revealStateM 2 0 ['u']).1 (by decide)
  · exact (revealBatch_commit_reveal List.length revealStateM 1 1 ['u']).2.1 rfl (by decide)
  · exact (revealBatch_commit_reveal List.length revealStateM 1 2 ['x', '/']).2.2.1 rfl
      (by decide) (by decide)
  · exact (revealBatch_commit_reveal List.length revealStateM 1 0 ['u', 'u']).2.2.2.1 rfl
      (by decide) (by decide) (by decide)
  · exact ((revealBatch_commit_reveal List.length revealStateM 1 0 ['u']).2.2.2.2 rfl
      (by decide) (by decide) (by decide) (by decide)).1

/-- C7 counterexample: with the seed still unset, a `proveTicket` call
that passes all four checks listed by the claim (unclaimed ticket, range,
non-zero recipient, valid Merkle proof — here the empty proof against a
root equal to the leaf hash) does not mark-and-mint as claimed: it aborts
with `SeedNotSet`, a failure mode the claim does not allow for. -/
theorem proveTicket_seed_unset_aborts :
    Sers1.proveTicket (fun a b => a + b) (fun r t => r + 2 * t) sampleState1 1 1 [] =
      .error .seedNotSet := rfl

/-- C7 (amended): `proveTicket` fails `TicketAlreadyClaimed` on a claimed
ticket, `InvalidTicketId` outside `(0, MAX_SUPPLY]`, `InvalidRecipient` on
the zero address, `InvalidProof` when Merkle verification of the leaf
`leafHash(recipient, ticketId)` fails, and otherwise — provided the seed
has been set, which the claim omits (and, as in every reachable state, the
derived token id is unminted with the ledger below the supply cap) — marks
the ticket claimed and mints `ticketToTokenId(ticketId)` to the
recipient. -/
theorem proveTicket_checks (pairHash leafHash : Nat → Nat → Nat) (st : Sers1.State)
    (recipient ticketId : Nat) (proof : List Nat) :
    (st.claimedTickets ticketId = true →
      Sers1.proveTicket pairHash leafHash st recipient ticketId proof =
        .error .ticketAlreadyClaimed) ∧
    (st.claimedTickets ticketId = false → ¬(0 < ticketId ∧ ticketId ≤ Sers1.MAX_SUPPLY) →
      Sers1.proveTicket pairHash leafHash st recipient ticketId proof =
        .error .invalidTicketId) ∧
    (st.claimedTickets ticketId = false → 0 < ticketId → ticketId ≤ Sers1.MAX_SUPPLY →
      recipient = 0 →
      Sers1.proveTicket pairHash leafHash st recipient ticketId proof =
        .error .invalidRecipient) ∧
    (st.claimedTickets ticketId = false → 0 < ticketId → ticketId ≤ Sers1.MAX_SUPPLY →
      recipient ≠ 0 →
      merkleVerify pairHash proof st.claimlistRoot (leafHash recipient ticketId) = false →
      Sers1.proveTicket pairHash leafHash st recipient ticketId proof =
        .error .invalidProof) ∧
    (∀ v : Nat, st.claimedTickets ticketId = false → 0 < ticketId →
      ticketId ≤ Sers1.MAX_SUPPLY → recipient ≠ 0 →
      merkleVerify pairHash proof st.claimlistRoot (leafHash recipient ticketId) = true →
      st.shuffleSeed ≠ 0 →
      Shuffle.permute (ticketId - 1) Sers1.MAX_SUPPLY st.shuffleSeed = some v →
      st.minted v = false → st.mintedCount < Sers1.MAX_SUPPLY →
      Sers1.proveTicket pairHash leafHash st recipient ticketId proof =
        .ok { st with
          claimedTickets := fun t => if t = ticketId then true else st.claimedTickets t,
          originalMinter := fun t => if t = v then recipient else st.originalMinter t,
          minted := fun t => if t = v then true else st.minted t,
          mintedCount := st.mintedCount + 1 }) := by
  refine ⟨?_, ?_, ?_, ?_, ?_⟩
  · intro h
    rw [Sers1.proveTicket, if_pos h]
  · intro h hrange
    rw [Sers1.proveTicket, if_neg (by simp [h]), if_pos hrange]
  · intro h h1 h2 hr
    rw [Sers1.proveTicket, if_neg (by simp [h]), if_neg (not_not_intro ⟨h1, h2⟩), if_pos hr]
  · intro h h1 h2 hr hm
    rw [Sers1.proveTicket, if_neg (by simp [h]), if_neg (not_not_intro ⟨h1, h2⟩),
      if_neg hr, if_pos (by simp [hm])]
  · intro v h h1 h2 hr hm hs hperm hmint hcount
    rw [Sers1.proveTicket, if_neg (by simp [h]), if_neg (not_not_intro ⟨h1, h2⟩),
      if_neg hr, if_neg (by simp [hm])]
    dsimp only
    rw [Sers1.ticketToTokenId, if_neg (by simpa using hs), if_neg (by omega),
      if_neg (not_not_intro (show ticketId - 1 < U32 by
        have h3 : ticketId ≤ 3333 := h2
        simp only [U32]
        omega)),
      hperm]
    dsimp only
    rw [Sers1.mintToUser, if_neg (not_not_intro hcount), if_neg hr,
      if_neg (by simpa using hmint)]

/-- C7 witness: with the seed set to 1 on the sample collection, ticket 1
(leaf hash 3, empty proof against root 3) mints token 2023 to
recipient 1. -/
theorem proveTicket_checks_witness :
    Sers1.proveTicket (fun a b => a + b) (fun r t => r + 2 * t)
        { sampleState1 with shuffleSeed := 1 } 1 1 [] =
      .ok { { sampleState1 with shuffleSeed := 1 } with
        claimedTickets := fun t => if t = 1 then true
          else ({ sampleState1 with shuffleSeed := 1 } : Sers1.State).claimedTickets t,
        originalMinter := fun t => if t = 2023 then 1
          else ({ sampleState1 with shuffleSeed := 1 } : Sers1.State).originalMinter t,
        minted := fun t => if t = 2023 then true
          else ({ sampleState1 with shuffleSeed := 1 } : Sers1.State).minted t,
        mintedCount := ({ sampleState1 with shuffleSeed := 1 } : Sers1.State).mintedCount + 1 } ∧
    Sers1.proveTicket (fun a b => a + b) (fun r t => r + 2 * t) sampleState1 0 1 [] =
      .error .invalidRecipient := by
  constructor
  · exact (proveTicket_checks (fun a b => a + b) (fun r t => r + 2 * t)
      { sampleState1 with shuffleSeed := 1 } 1 1 []).2.2.2.2 2023
      rfl (by decide) (by decide) (by decide) rfl (by decide) (by decide) rfl (by decide)
  · exact (proveTicket_checks (fun a b => a + b) (fun r t => r + 2 * t)
      sampleState1 0 1 []).2.2.1 rfl (by decide) (by decide) rfl

/-- C8: every failing call commits nothing.  (a) Any `redeemTicket` error
of the attestation variant leaves the persisted state exactly as before
the call; (b) an otherwise well-formed redeem whose signature the
verifier rejects (for example a zero-length or garbage signature) fails
precisely with `InvalidSignature`; (c) even when the failure (an invalid
ticket/token pair) is raised after the claimed flag was already flipped
inside the call, nothing persists; (d) the same atomicity for the
multi-batch `redeemTicket`. -/
theorem redeemTicket_failures_atomic :
    (∀ (sigValid : Nat → Nat → Nat → Nat → Nat → List Nat → Bool) (st : Sers0.State)
        (recipient ticketId tokenId rarityScore : Nat) (signature : List Nat)
        (e : SersError),
      Sers0.redeemTicket sigValid st recipient ticketId tokenId rarityScore signature =
        .error e →
      commitState st
        (Sers0.redeemTicket sigValid st recipient ticketId tokenId rarityScore signature) =
        st) ∧
    (∀ (sigValid : Nat → Nat → Nat → Nat → Nat → List Nat → Bool) (st : Sers0.State)
        (recipient ticketId tokenId rarityScore : Nat) (signature : List Nat),
      st.claimedTickets ticketId = false → ticketId < Sers0.MAX_SUPPLY →
      rarityScore < 255 →
      sigValid st.owner recipient ticketId tokenId rarityScore signature = false →
      Sers0.redeemTicket sigValid st recipient ticketId tokenId rarityScore signature =
        .error .invalidSignature) ∧
    (∀ (sigValid : Nat → Nat → Nat → Nat → Nat → List Nat → Bool) (st : Sers0.State)
        (recipient ticketId tokenId rarityScore : Nat) (signature : List Nat),
      st.claimedTickets ticketId = false → ticketId < Sers0.MAX_SUPPLY →
      rarityScore < 255 →
      sigValid st.owner recipient ticketId tokenId rarityScore signature = true →
      st.shuffleSeed ≠ 0 →
      tokenId ≠ Sers0.shuffle ticketId Sers0.MAX_SUPPLY st.shuffleSeed →
      Sers0.redeemTicket sigValid st recipient ticketId tokenId rarityScore signature =
        .error .invalidTicketTokenPair ∧
      commitState st
        (Sers0.redeemTicket sigValid st recipient ticketId tokenId rarityScore signature) =
        st) ∧
    (∀ (sigValid : Nat → Nat → Nat → Nat → List Nat → Bool) (st : SersM.State)
        (recipient batch ticketId : Nat) (signature : List Nat) (e : SersError),
      SersM.redeemTicket sigValid st recipient batch ticketId signature = .error e →
      commitState st (SersM.redeemTicket sigValid st recipient batch ticketId signature) =
        st) := by
  refine ⟨?_, ?_, ?_, ?_⟩
  · intro sv st r t tok rs sig e h
    rw [h]
    rfl
  · intro sv st r t tok rs sig h ht hrs hsig
    rw [Sers0.redeemTicket, if_neg (by simp [h]), if_neg (not_not_intro ht),
      if_neg (not_not_intro hrs), if_pos (by simp [hsig])]
  · intro sv st r t tok rs sig h ht hrs hsig hs hne
    have hred : Sers0.redeemTicket sv st r t tok rs sig = .error .invalidTicketTokenPair := by
      rw [Sers0.redeemTicket, if_neg (by simp [h]), if_neg (not_not_intro ht),
        if_neg (not_not_intro hrs), if_neg (by simp [hsig])]
      dsimp only
      rw [Sers0.ticketToTokenId, if_neg (by simpa using hs),
        if_neg (not_not_intro (show t < U32 by
          have h3 : t < 11111 := ht
          simp only [U32]
          omega))]
      dsimp only
      rw [if_pos hne]
    exact ⟨hred, by rw [hred]; rfl⟩
  · intro sv st r b t sig e h
    rw [h]
    rfl

/-- C8 witness: a rejected signature on a fresh collection fails
`InvalidSignature` and commits nothing; with the seed set to 1, an
accepted signature with a wrong token id (5 instead of the derived 0)
fails `InvalidTicketTokenPair` after the in-call claimed flip, and
commits nothing; an unrevealed multi-batch redeem likewise commits
nothing. -/
theorem redeemTicket_failures_atomic_witness :
    Sers0.redeemTicket (fun _ _ _ _ _ _ => false) sampleState0 2 1 0 50 [] =
      .error .invalidSignature ∧
    commitState sampleState0
      (Sers0.redeemTicket (fun _ _ _ _ _ _ => false) sampleState0 2 1 0 50 []) =
      sampleState0 ∧
    Sers0.redeemTicket (fun _ _ _ _ _ _ => true) { sampleState0 with shuffleSeed := 1 }
        2 1 5 50 [] =
      .error .invalidTicketTokenPair ∧
    commitState { sampleState0 with shuffleSeed := 1 }
      (Sers0.redeemTicket (fun _ _ _ _ _ _ => true) { sampleState0 with shuffleSeed := 1 }
        2 1 5 50 []) =
      { sampleState0 with shuffleSeed := 1 } ∧
    commitState revealStateM
      (SersM.redeemTicket (fun _ _ _ _ _ => false) revealStateM 2 0 3 []) =
      revealStateM := by
  have hb := redeemTicket_failures_atomic.2.1 (fun _ _ _ _ _ _ => false) sampleState0
    2 1 0 50 [] rfl (by decide) (by decide) rfl
  have hc := redeemTicket_failures_atomic.2.2.1 (fun _ _ _ _ _ _ => true)
    { sampleState0 with shuffleSeed := 1 } 2 1 5 50 [] rfl (by decide) (by decide) rfl
    (by decide) (by decide)
  have ha := redeemTicket_failures_atomic.1 (fun _ _ _ _ _ _ => false) sampleState0
    2 1 0 50 [] .invalidSignature hb
  have hd := redeemTicket_failures_atomic.2.2.2 (fun _ _ _ _ _ => false) revealStateM
    2 0 3 [] .notRevealedYet rfl
  exact ⟨hb, ha, hc.1, hc.2, hd⟩

/-- A successful `addBatch` does not touch the issued count. -/
theorem addBatch_ok_mintedCount {kec : List Char → Nat} {st st2 : SersM.State}
    {sender batch c supply : Nat}
    (h : SersM.addBatch kec st sender batch c supply = .ok st2) :
    st2.mintedCount = st.mintedCount := by
  unfold SersM.addBatch at h
  repeat' (first | exact Except.noConfusion h | split at h)
  cases h
  rfl

/-- A successful `setSeed` does not touch the issued count. -/
theorem setSeed_ok_mintedCount {st st2 : SersM.State} {sender batch randomness : Nat}
    (h : SersM.setSeed st sender batch randomness = .ok st2) :
    st2.mintedCount = st.mintedCount := by
  unfold SersM.setSeed at h
  repeat' (first | exact Except.noConfusion h | split at h)
  cases h
  rfl

/-- A successful `revealBatch` does not touch the issued count. -/
theorem revealBatch_ok_mintedCount {kec : List Char → Nat} {st st2 : SersM.State}
    {sender batch : Nat} {uri : List Char}
    (h : SersM.revealBatch kec st sender batch uri = .ok st2) :
    st2.mintedCount = st.mintedCount := by
  unfold SersM.revealBatch at h
  repeat' (first | exact Except.noConfusion h | split at h)
  cases h
  rfl

/-- A successful `redeemTicket` passes the `totalSupply() < MAX_SUPPLY`
assertion and issues exactly one token. -/
theorem redeemTicket_ok_mintedCount {sv : Nat → Nat → Nat → Nat → List Nat → Bool}
    {st st2 : SersM.State} {r b t : Nat} {sig : List Nat}
    (h : SersM.redeemTicket sv st r b t sig = .ok st2) :
    st.mintedCount < SersM.MAX_SUPPLY ∧ st2.mintedCount = st.mintedCount + 1 := by
  unfold SersM.redeemTicket at h
  try dsimp only at h
  repeat' (first | exact Except.noConfusion h | split at h)
  unfold SersM.mintToUser at h
  try dsimp only at h
  repeat' (first | exact Except.noConfusion h | split at h)
  cases h
  exact ⟨by omega, rfl⟩

/-- C9: the supply invariant.  (1) `addBatch` rejects with
`SupplyExceedsMaximum` any batch pushing the cumulative batch supply over
`MAX_SUPPLY`; (2) every successful mint through `redeemTicket` happens
only while the issued count is strictly below `MAX_SUPPLY`, and issues
exactly one token; (3) hence `supplyIssued ≤ MAX_SUPPLY` holds in every
reachable state. -/
theorem supply_invariant :
    (∀ (kec : List Char → Nat) (st : SersM.State) (sender batch c supply : Nat),
      sender = st.owner → st.nextBatch = batch →
      SersM.MAX_SUPPLY < SersM.totalAvailableSupply st.batchSupply st.nextBatch + supply →
      SersM.addBatch kec st sender batch c supply = .error .supplyExceedsMaximum) ∧
    (∀ (sigValid : Nat → Nat → Nat → Nat → List Nat → Bool) (st st2 : SersM.State)
        (recipient batch ticketId : Nat) (signature : List Nat),
      SersM.redeemTicket sigValid st recipient batch ticketId signature = .ok st2 →
      st.mintedCount < SersM.MAX_SUPPLY ∧ st2.mintedCount = st.mintedCount + 1) ∧
    (∀ st : SersM.State, SersM.Reachable st → st.mintedCount ≤ SersM.MAX_SUPPLY) := by
  refine ⟨?_, ?_, ?_⟩
  · intro kec st sender batch c supply hown hbatch hsup
    rw [SersM.addBatch, if_neg (not_not_intro hown), if_neg (not_not_intro hbatch),
      if_pos (Nat.not_le.mpr hsup)]
  · intro sigValid st st2 recipient batch ticketId signature h
    exact redeemTicket_ok_mintedCount h
  · intro st h
    induction h with
    | deploy d => exact Nat.zero_le _
    | stepAddBatch kec sender batch c supply hre hok ih =>
        rw [addBatch_ok_mintedCount hok]
        exact ih
    | stepSetSeed sender batch randomness hre hok ih =>
        rw [setSeed_ok_mintedCount hok]
        exact ih
    | stepRevealBatch kec sender batch uri hre hok ih =>
        rw [revealBatch_ok_mintedCount hok]
        exact ih
    | stepRedeemTicket sigValid recipient batch ticketId signature hre hok ih =>
        have h2 := redeemTicket_ok_mintedCount hok
        omega

/-- C9 witness: adding a 3334-token batch to a fresh deployment is
rejected; a successful redeem on `redeemStateM` presupposes the strict
supply bound; the deployment state satisfies the invariant. -/
theorem supply_invariant_witness :
    SersM.addBatch (fun _ => 9) (SersM.initState 1) 1 0 1 3334 =
      .error .supplyExceedsMaximum ∧
    redeemStateM.mintedCount < SersM.MAX_SUPPLY ∧
    (SersM.initState 1).mintedCount ≤ SersM.MAX_SUPPLY := by
  refine ⟨?_, ?_, ?_⟩
  · exact supply_invariant.1 (fun _ => 9) (SersM.initState 1) 1 0 1 3334 rfl rfl (by decide)
  · exact (supply_invariant.2.1 (fun _ _ _ _ _ => true) redeemStateM _ 2 0 3 [] rfl).1
  · exact supply_invariant.2.2 (SersM.initState 1) (SersM.Reachable.deploy 1)

/-- C10 counterexample: the claim asserts a fatal permute precondition is
reachable for every revealed, seeded batch with
`batchSupply[batch] < MAX_SUPPLY`.  At `batchSupply = 3332 = MAX_SUPPLY - 1`
the only ticket id in `[batchSupply, MAX_SUPPLY)` is 3332 itself, and the
engine accepts `index = length` (its fatal check is `idx ≤ len`), so that
redeem call succeeds instead of hitting the fatal branch. -/
theorem redeem_boundary_no_fatal :
    cornerStateM.batchSupply 0 = SersM.MAX_SUPPLY - 1 ∧
    callSucceeds (SersM.redeemTicket (fun _ _ _ _ _ => true) cornerStateM 2 0 3332 []) =
      true :=
  ⟨rfl, rfl⟩

/-- C10 (amended): for every revealed batch with set seed and
`batchSupply[batch] + 1 < MAX_SUPPLY`, the ticket id
`batchSupply[batch] + 1` lies in `[batchSupply[batch], MAX_SUPPLY)`,
passes every validation check of `redeemTicket` (given an unclaimed ticket
and an accepted signature), and drives `Shuffle.permute` into its fatal
precondition branch with `index > length` — reachable through the public
redeem interface.  (At the boundary `batchSupply = MAX_SUPPLY - 1` the
only in-window index equals the length, which the engine accepts.) -/
theorem redeem_reaches_permute_fatal (sigValid : Nat → Nat → Nat → Nat → List Nat → Bool)
    (st : SersM.State) (recipient batch : Nat) (signature : List Nat)
    (hrev : st.baseTokenURIs batch ≠ [])
    (hseed : st.shuffleSeeds batch ≠ 0)
    (hsup : st.batchSupply batch + 1 < SersM.MAX_SUPPLY)
    (hunclaimed : st.claimedTickets batch (st.batchSupply batch + 1) = false)
    (hsig : sigValid st.owner recipient batch (st.batchSupply batch + 1) signature = true) :
    st.batchSupply batch % U32 < st.batchSupply batch + 1 ∧
    st.batchSupply batch + 1 < SersM.MAX_SUPPLY ∧
    Shuffle.permute (st.batchSupply batch + 1) (st.batchSupply batch % U32)
      (st.shuffleSeeds batch) = none ∧
    SersM.redeemTicket sigValid st recipient batch (st.batchSupply batch + 1) signature =
      .error .panicAssert := by
  have hsup3 : st.batchSupply batch + 1 < 3333 := hsup
  have hmod : st.batchSupply batch % U32 = st.batchSupply batch :=
    Nat.mod_eq_of_lt (by simp only [U32]; omega)
  have hperm : Shuffle.permute (st.batchSupply batch + 1) (st.batchSupply batch % U32)
      (st.shuffleSeeds batch) = none := by
    rw [hmod, Shuffle.permute]
    rcases Nat.eq_zero_or_pos (st.batchSupply batch) with h0 | h0
    · rw [if_pos h0]
    · rw [if_neg (by omega), if_pos (by omega)]
  refine ⟨by rw [hmod]; omega, hsup, hperm, ?_⟩
  rw [SersM.redeemTicket, if_neg (fun hl => hrev (List.length_eq_zero.mp hl)),
    if_neg (by simp [hunclaimed]), if_neg (not_not_intro hsup),
    if_neg (by simp [hsig])]
  dsimp only
  rw [SersM.ticketToTokenId, if_neg hseed,
    if_neg (not_not_intro (show st.batchSupply batch + 1 < U32 by
      simp only [U32]
      omega)),
    hperm]

/-- C10 witness: on the supply-10 collection `redeemStateM`, ticket 11
passes validation and aborts with the engine's fatal precondition
panic. -/
theorem redeem_reaches_permute_fatal_witness :
    redeemStateM.batchSupply 0 % U32 < redeemStateM.batchSupply 0 + 1 ∧
    redeemStateM.batchSupply 0 + 1 < SersM.MAX_SUPPLY ∧
    Shuffle.permute (redeemStateM.batchSupply 0 + 1) (redeemStateM.batchSupply 0 % U32)
      (redeemStateM.shuffleSeeds 0) = none ∧
    SersM.redeemTicket (fun _ _ _ _ _ => true) redeemStateM 2 0
      (redeemStateM.batchSupply 0 + 1) [] = .error .panicAssert :=
  redeem_reaches_permute_fatal (fun _ _ _ _ _ => true) redeemStateM 2 0 []
    (by decide) (by decide) (by decide) rfl rfl
